import Mathlib

/-!
Shallow embedding of the browser chat client in `src/frontend/app.js`
(the variant with attachments, lines 1-882 of the bundled file).

The module-level mutable variables of the script (`currentDatabase`,
`currentChatId`, `pendingMessage`, `pendingAttachments`, `attachedFiles`,
`currentStreamDiv`, `currentStreamContent`, the input box, `localStorage`
keys, the chat list and the WebSocket) become fields of `AppState`.
The DOM transcript is factored into its claim-relevant components:
ordinary message entries (`messages`), the ordered tool-badge list
(`badges`, each with its done flag), the thinking-spinner presence
(`hasSpinner` - the spinner div carries the `tool-badge` CSS class, which
is why badge-wide operations also affect it), and the live streaming
assistant div (`streamDiv`, holding its rendered innerHTML).

Outbound network effects (`ws.send`, the attachment-upload `fetch`) are
recorded in the chronological `actions` log; `connectWS()` invocations are
counted in `connectCalls`.  The outcome of an awaited upload `fetch` is
supplied as an `Except String (List String)` oracle argument (error
message, or the list of `saved_as` filenames), and the chat-list `fetch`
of `loadChats` as a `List ChatSummary` argument.  The external markdown
renderer `marked.parse` is an arbitrary function parameter `render`.
`ws.readyState` is abstracted to the boolean `wsOpen` (OPEN or not).
-/

/-- A chat summary as delivered by the server (`data.chat` / chat list). -/
structure ChatSummary where
  id : Int
  title : String
deriving Repr, DecidableEq

/-- An attached file; only its identity travels through the send paths. -/
structure FileRec where
  name : String
  size : Nat
deriving Repr, DecidableEq

/-- Client-to-server WebSocket events (`ws.send(JSON.stringify(...))`). -/
inductive OutMsg where
  | setRole (role : String)
  | setDatabase (database : String)
  | setChat (chatId : Int)
  | createChat (title : String)
  | message (content : String) (attachments : List String)
deriving Repr, DecidableEq

/-- Outbound network actions: a WebSocket send, or the multipart upload
`POST .../chats/{chatId}/files`. -/
inductive NetAction where
  | wsSend (m : OutMsg)
  | uploadFetch (database : String) (chatId : Int) (files : List FileRec)
deriving Repr, DecidableEq

/-- Transcript entries other than tool badges and the live stream div:
`.msg-user`, committed `.msg-assistant` divs, and `.msg-error`. -/
inductive Entry where
  | userE (text : String) (attachments : List String)
  | assistantE (html : String)
  | errorE (text : String)
deriving Repr, DecidableEq

/-- The whole mutable state of the script. -/
structure AppState where
  currentDatabase : Option String
  currentChatId : Option Int
  pendingMessage : Option String
  pendingAttachments : Option (List FileRec)
  attachedFiles : List FileRec
  userInput : String
  messages : List Entry
  badges : List (String × Bool)
  hasSpinner : Bool
  streamDiv : Option String
  streamContent : String
  inputEnabled : Bool
  chatList : List ChatSummary
  wsOpen : Bool
  actions : List NetAction
  connectCalls : Nat
  savedDb : Option String
  savedChat : Option Int
deriving Repr, DecidableEq

/-- The initial values of the module-level variables (app.js lines 17-29),
with an empty transcript and the persisted keys absent. -/
def initState : AppState :=
  { currentDatabase := none
    currentChatId := none
    pendingMessage := none
    pendingAttachments := none
    attachedFiles := []
    userInput := ""
    messages := []
    badges := []
    hasSpinner := false
    streamDiv := none
    streamContent := ""
    inputEnabled := true
    chatList := []
    wsOpen := false
    actions := []
    connectCalls := 0
    savedDb := none
    savedChat := none }

/-- `saveState()` (app.js 871-874): writes the persisted keys only when the
corresponding current value is non-null; it never removes either key. -/
def saveState (s : AppState) : AppState :=
  let s1 :=
    match s.currentDatabase with
    | some db => { s with savedDb := some db }
    | none => s
  match s1.currentChatId with
  | some cid => { s1 with savedChat := some cid }
  | none => s1

/-- `appendError(text)` (app.js 341-347): appends a `.msg-error` div. -/
def appendError (s : AppState) (text : String) : AppState :=
  { s with messages := s.messages ++ [Entry.errorE text] }

/-- `appendUser(text, attachmentFilenames)` (app.js 290-314). -/
def appendUser (s : AppState) (text : String) (atts : List String) : AppState :=
  { s with messages := s.messages ++ [Entry.userE text atts] }

/-- `showSpinner()` (app.js 349-356): adds the thinking indicator
(a div with id `thinking-spinner` and CSS class `tool-badge`). -/
def showSpinner (s : AppState) : AppState :=
  { s with hasSpinner := true }

/-- `removeSpinner()` (app.js 358-361). -/
def removeSpinner (s : AppState) : AppState :=
  { s with hasSpinner := false }

/-- `removeAllToolBadges()` (app.js 364-366): removes every element with
class `tool-badge` - the tool badges and the thinking spinner. -/
def removeAllToolBadges (s : AppState) : AppState :=
  { s with badges := [], hasSpinner := false }

/-- `markAllToolBadgesDone()` (app.js 369-384): removes the thinking
spinner, then flips every remaining tool badge to its done visual state
(spinner span replaced by a checkmark), keeping them in place and in
document order. -/
def markAllToolBadgesDone (s : AppState) : AppState :=
  { s with hasSpinner := false
           badges := s.badges.map (fun b => (b.1, true)) }

/-- `clearChatUI()` (app.js 246-254): drops the stream-div reference,
resets the accumulated buffer and removes every `.msg-user`,
`.msg-assistant`, `.msg-system`, `.msg-error` and `.tool-badge` element
(the spinner included, via its `tool-badge` class). -/
def clearChatUI (s : AppState) : AppState :=
  { s with streamDiv := none
           streamContent := ""
           messages := []
           badges := []
           hasSpinner := false }

/-- `setInputEnabled(enabled)` (app.js 401-406). -/
def setInputEnabled (s : AppState) (enabled : Bool) : AppState :=
  { s with inputEnabled := enabled }

/-- The argument list display of `appendToolCall` (app.js 319-321):
`k=v` pairs joined by `, s`; non-string values arrive already
JSON-stringified. -/
def argsText (args : List (String × String)) : String :=
  String.intercalate ", " (args.map (fun kv => kv.1 ++ "=" ++ kv.2))

/-- The badge text built by `appendToolCall`: `tool(argsText)`. -/
def toolBadgeLabel (tool : String) (args : List (String × String)) : String :=
  tool ++ "(" ++ argsText args ++ ")"

/-- `appendToolCall(tool, args)` (app.js 316-328): appends a running badge
(spinner span) at the end of the transcript. -/
def appendToolCall (s : AppState) (tool : String) (args : List (String × String)) : AppState :=
  { s with badges := s.badges ++ [(toolBadgeLabel tool args, false)] }

/-- `handleStreamChunk(content)` (app.js 386-398): an empty fragment is
ignored; otherwise the fragment is appended to `currentStreamContent`,
a live assistant div being created first when none exists, and the div's
innerHTML is set to `renderMarkdown` of the whole accumulated buffer. -/
def handleStreamChunk (render : String → String) (s : AppState) (content : String) : AppState :=
  if content = "" then s
  else
    let newContent := s.streamContent ++ content
    { s with streamContent := newContent
             streamDiv := some (render newContent) }

/-- The `case "stream"` branch of `handleMessage` (app.js 138-141). -/
def handleStream (render : String → String) (s : AppState) (content : String) : AppState :=
  handleStreamChunk render (removeSpinner s) content

/-- The `case "tool_call"` branch of `handleMessage` (app.js 148-152). -/
def handleToolCall (s : AppState) (tool : String) (args : List (String × String)) : AppState :=
  showSpinner (appendToolCall (removeSpinner s) tool args)

/-- The committed remnant of the live stream div: when `handleMessage`
nulls `currentStreamDiv`, the DOM node itself stays in the transcript. -/
def streamDivRemnant (s : AppState) : List Entry :=
  match s.streamDiv with
  | some h => [Entry.assistantE h]
  | none => []

/-- The `case "stream_end"` branch of `handleMessage` (app.js 142-147):
`markAllToolBadgesDone()`, then the stream-div reference and the
accumulated buffer are reset and input is re-enabled. -/
def handleStreamEnd (s : AppState) : AppState :=
  let s1 := markAllToolBadgesDone s
  { s1 with messages := s1.messages ++ streamDivRemnant s1
            streamDiv := none
            streamContent := ""
            inputEnabled := true }

/-- The `case "error"` branch of `handleMessage` (app.js 153-160):
`removeSpinner()`, `removeAllToolBadges()`, `appendError(content)`, then
the stream-div reference and buffer are reset and input is re-enabled. -/
def handleError (s : AppState) (content : String) : AppState :=
  let s1 := removeAllToolBadges (removeSpinner s)
  { s1 with messages := s1.messages ++ streamDivRemnant s1 ++ [Entry.errorE content]
            streamDiv := none
            streamContent := ""
            inputEnabled := true }

/-- JavaScript `String.prototype.trim`: strip whitespace from both ends.
(Defined over the character list so that it evaluates by kernel
reduction.) -/
def jsTrim (s : String) : String :=
  ⟨((s.data.dropWhile Char.isWhitespace).reverse.dropWhile Char.isWhitespace).reverse⟩

/-- JavaScript `text.split("\n")[0]`: the characters before the first
newline. -/
def jsFirstLine (s : String) : String :=
  ⟨s.data.takeWhile (fun c => c ≠ '\n')⟩

/-- JavaScript `String.prototype.slice(0, n)` (on characters). -/
def jsSlice (s : String) (n : Nat) : String :=
  ⟨s.data.take n⟩

/-- The new-chat title in `sendMessage` (app.js 449):
`text.split("\n")[0].trim().slice(0, 40) || "Новый чат"`. -/
def deriveTitle (text : String) : String :=
  let t := jsSlice (jsTrim (jsFirstLine text)) 40
  if t = "" then "Новый чат" else t

/-- `sendMessage()` (app.js 427-480).  `uploadResult` is the outcome of the
awaited `uploadFilesForChat` fetch, consulted only on the existing-chat
path with attachments. -/
def sendMessage (uploadResult : Except String (List String)) (s : AppState) : AppState :=
  let text := jsTrim s.userInput
  if text = "" ∧ s.attachedFiles.isEmpty then s
  else if s.currentDatabase.isNone then
    appendError s "Please select a database first."
  else if ¬ s.wsOpen then
    let s1 := appendError s "WebSocket is not connected. Reconnecting..."
    { s1 with connectCalls := s1.connectCalls + 1 }
  else
    match s.currentChatId with
    | none =>
      let s1 := { s with
        pendingMessage := some text
        pendingAttachments := if s.attachedFiles.isEmpty then none else some s.attachedFiles
        userInput := ""
        attachedFiles := [] }
      let s2 := { s1 with actions := s1.actions ++ [NetAction.wsSend (OutMsg.createChat (deriveTitle text))] }
      setInputEnabled s2 false
    | some cid =>
      if s.attachedFiles.isEmpty then
        let s1 := appendUser s (if text = "" then "(attachments only)" else text) []
        let s2 := { s1 with
          actions := s1.actions ++ [NetAction.wsSend (OutMsg.message text [])]
          userInput := ""
          attachedFiles := [] }
        showSpinner (setInputEnabled s2 false)
      else
        let s1 := { s with actions := s.actions ++ [NetAction.uploadFetch (s.currentDatabase.getD "") cid s.attachedFiles] }
        match uploadResult with
        | Except.error e =>
          setInputEnabled (appendError s1 ("Upload failed: " ++ e)) true
        | Except.ok savedFilenames =>
          let s2 := appendUser s1 (if text = "" then "(attachments only)" else text) savedFilenames
          let s3 := { s2 with
            actions := s2.actions ++ [NetAction.wsSend (OutMsg.message text savedFilenames)]
            userInput := ""
            attachedFiles := [] }
          showSpinner (setInputEnabled s3 false)

/-- The `case "chat_created"` branch of `handleMessage` (app.js 165-209),
for a non-null `data.chat`: the chat is inserted at the top of the list and
becomes current, the chat view is cleared and the selection persisted;
then, when a PendingSend is held, its attachments (if any) are uploaded
first and, on success only, the single message event is dispatched. -/
def handleChatCreated (chat : ChatSummary) (uploadResult : Except String (List String))
    (s : AppState) : AppState :=
  let s1 := { s with chatList := chat :: s.chatList }
  let s2 := { s1 with currentChatId := some chat.id }
  let s3 := saveState (clearChatUI s2)
  if s3.pendingMessage.isSome ∨ ¬ (s3.pendingAttachments.getD []).isEmpty then
    let text := s3.pendingMessage.getD ""
    if ¬ (s3.pendingAttachments.getD []).isEmpty then
      let files := s3.pendingAttachments.getD []
      let s4 := { s3 with actions := s3.actions ++ [NetAction.uploadFetch (s3.currentDatabase.getD "") chat.id files] }
      match uploadResult with
      | Except.error e =>
        let s5 := setInputEnabled (appendError s4 ("Upload failed: " ++ e)) true
        { s5 with pendingMessage := none, pendingAttachments := none }
      | Except.ok savedFilenames =>
        let s5 := appendUser s4 (if text = "" then "(attachments only)" else text) savedFilenames
        let s6 := { s5 with
          actions := s5.actions ++ [NetAction.wsSend (OutMsg.message text savedFilenames)]
          pendingMessage := none
          pendingAttachments := none }
        showSpinner (setInputEnabled s6 false)
    else
      let s4 := appendUser s3 (if text = "" then "(attachments only)" else text) []
      let s5 := { s4 with
        actions := s4.actions ++ [NetAction.wsSend (OutMsg.message text [])]
        pendingMessage := none
        pendingAttachments := none }
      showSpinner (setInputEnabled s5 false)
  else s3

/-- `selectChat(chatId)` (app.js 806-815): sets and persists the current
chat, then announces it when the socket is open, or reconnects. -/
def selectChat (chatId : Int) (s : AppState) : AppState :=
  let s1 := saveState { s with currentChatId := some chatId }
  if s1.wsOpen then
    { s1 with actions := s1.actions ++ [NetAction.wsSend (OutMsg.setChat chatId)] }
  else
    { s1 with connectCalls := s1.connectCalls + 1 }

/-- `onDatabaseChange(db)` (app.js 817-852).  `fetchedChats` is the chat
list returned by the awaited `loadChats` fetch.  After the list is loaded
and the context announced, a persisted chat id found in the new list is
re-selected; the handler ends with `clearChatUI()` and
`setInputEnabled(true)`. -/
def onDatabaseChange (db : Option String) (fetchedChats : List ChatSummary)
    (s : AppState) : AppState :=
  let s1 := saveState { s with currentDatabase := db, currentChatId := none }
  let s2 :=
    match db with
    | some dbName =>
      let sA := { s1 with chatList := fetchedChats }
      let sB :=
        if sA.wsOpen then
          { sA with actions := sA.actions ++ [NetAction.wsSend (OutMsg.setDatabase dbName)] }
        else
          { sA with connectCalls := sA.connectCalls + 1 }
      match sB.savedChat with
      | some savedId =>
        if fetchedChats.any (fun c => c.id == savedId) then selectChat savedId sB else sB
      | none => sB
    | none =>
      { s1 with chatList := [] }
  setInputEnabled (clearChatUI s2) true

/-- Mid-turn inbound events: streamed text fragments and tool calls. -/
inductive MidEvt where
  | streamFrag (content : String)
  | toolCallEvt (tool : String) (args : List (String × String))
deriving Repr, DecidableEq

/-- Dispatch of a mid-turn event through `handleMessage`. -/
def stepMid (render : String → String) (s : AppState) (e : MidEvt) : AppState :=
  match e with
  | MidEvt.streamFrag c => handleStream render s c
  | MidEvt.toolCallEvt t a => handleToolCall s t a

/-- The running badges created by the tool calls of a turn, in arrival
order. -/
def midRunningBadges (mids : List MidEvt) : List (String × Bool) :=
  mids.filterMap (fun e =>
    match e with
    | MidEvt.toolCallEvt t a => some (toolBadgeLabel t a, false)
    | MidEvt.streamFrag _ => none)

/-- The same badges, marked done. -/
def midDoneBadges (mids : List MidEvt) : List (String × Bool) :=
  mids.filterMap (fun e =>
    match e with
    | MidEvt.toolCallEvt t a => some (toolBadgeLabel t a, true)
    | MidEvt.streamFrag _ => none)

/-- Concatenation of a list of stream fragments, as accumulated by
`currentStreamContent +=`. -/
def concatFrags (l : List String) : String :=
  l.foldl (fun a b => a ++ b) ""

/-! ### Helper lemmas -/

theorem strAppendNeEmpty (a b : String) (h : b ≠ "") : a ++ b ≠ "" := by
  intro hc
  apply h
  have hd := congrArg String.data hc
  rw [String.data_append] at hd
  have hb : b.data = [] := (List.append_eq_nil.mp hd).2
  cases b
  simp_all

/-- Invariant of folding `handleStream` over a fragment list: the buffer
accumulates the fragments and the live div (when a non-empty fragment has
arrived) always shows the renderer applied to the whole buffer. -/
theorem handleStream_foldInv (render : String → String) (l : List String) :
    ∀ (s : AppState),
      s.streamDiv = (if s.streamContent = "" then none else some (render s.streamContent)) →
      (l.foldl (fun st c => handleStream render st c) s).streamContent
          = l.foldl (fun a b => a ++ b) s.streamContent
       ∧ (l.foldl (fun st c => handleStream render st c) s).streamDiv
          = (if l.foldl (fun a b => a ++ b) s.streamContent = "" then none
             else some (render (l.foldl (fun a b => a ++ b) s.streamContent))) := by
  induction l with
  | nil =>
    intro s h
    exact ⟨rfl, by simpa using h⟩
  | cons c rest ih =>
    intro s h
    simp only [List.foldl_cons]
    by_cases hc : c = ""
    · subst hc
      have hstep : handleStream render s "" = removeSpinner s := by
        simp [handleStream, handleStreamChunk]
      rw [hstep]
      have := ih (removeSpinner s) (by simpa [removeSpinner] using h)
      simpa [removeSpinner, String.append_empty] using this
    · have hstep : handleStream render s c =
          { removeSpinner s with
              streamContent := s.streamContent ++ c
              streamDiv := some (render (s.streamContent ++ c)) } := by
        simp [handleStream, handleStreamChunk, removeSpinner, hc]
      rw [hstep]
      have hne : s.streamContent ++ c ≠ "" := strAppendNeEmpty _ _ hc
      have := ih { removeSpinner s with
          streamContent := s.streamContent ++ c
          streamDiv := some (render (s.streamContent ++ c)) }
        (by simp [removeSpinner, hne])
      simpa [removeSpinner] using this

/-- Effect of one mid-turn event on the badge list: stream fragments leave
it unchanged, a tool call appends one running badge at the end. -/
theorem stepMid_badges (render : String → String) (s : AppState) (e : MidEvt) :
    (stepMid render s e).badges
      = s.badges ++ midRunningBadges [e] := by
  cases e with
  | streamFrag c =>
    by_cases hc : c = "" <;>
      simp [stepMid, handleStream, handleStreamChunk, removeSpinner, midRunningBadges, hc]
  | toolCallEvt t a =>
    simp [stepMid, handleToolCall, showSpinner, appendToolCall, removeSpinner, midRunningBadges]

/-- Folding the mid-turn events appends exactly their running badges, in
arrival order. -/
theorem foldMid_badges (render : String → String) (mids : List MidEvt) :
    ∀ (s : AppState),
      (mids.foldl (stepMid render) s).badges = s.badges ++ midRunningBadges mids := by
  induction mids with
  | nil => intro s; simp [midRunningBadges]
  | cons e rest ih =>
    intro s
    simp only [List.foldl_cons]
    rw [ih (stepMid render s e), stepMid_badges]
    cases e <;> simp [midRunningBadges, List.filterMap_cons]

/-- Marking the running badges of a turn done yields `midDoneBadges`. -/
theorem midRunningBadges_mark_done (mids : List MidEvt) :
    (midRunningBadges mids).map (fun b => (b.1, true)) = midDoneBadges mids := by
  induction mids with
  | nil => simp [midRunningBadges, midDoneBadges]
  | cons e rest ih =>
    cases e <;> simp [midRunningBadges, midDoneBadges, List.filterMap_cons] at ih ⊢ <;>
      simpa [midRunningBadges, midDoneBadges] using ih

/-! ### C1 -/

/-- C1: for every fragment sequence of one turn, starting from a fresh
stream state, after the i-th fragment is handled the accumulated buffer is
the concatenation F1..Fi, and the in-progress assistant div (which exists
as soon as that concatenation is non-empty) shows exactly the renderer
applied to that whole concatenation - a full re-render of the accumulated
buffer for an arbitrary renderer, never a patch of a previous render. -/
theorem stream_rendering_full_rerender (render : String → String)
    (frags : List String) (i : Nat) (s : AppState)
    (hdiv : s.streamDiv = none) (hbuf : s.streamContent = "") :
    ((frags.take i).foldl (fun st c => handleStream render st c) s).streamContent
        = concatFrags (frags.take i)
     ∧ ((frags.take i).foldl (fun st c => handleStream render st c) s).streamDiv
        = (if concatFrags (frags.take i) = "" then none
           else some (render (concatFrags (frags.take i)))) := by
  have h0 : s.streamDiv = (if s.streamContent = "" then none else some (render s.streamContent)) := by
    rw [hbuf, hdiv]
    simp
  have h := handleStream_foldInv render (frags.take i) s h0
  rw [hbuf] at h
  simpa [concatFrags] using h

/-- Witness for C1 at a concrete renderer, fragment list and prefix. -/
theorem stream_rendering_full_rerender_witness :
    initState.streamDiv = none ∧ initState.streamContent = "" ∧
    ((["# head\n", "body `", "", "code`"].take 3).foldl
        (fun st c => handleStream (fun t => "<md>" ++ t ++ "</md>") st c) initState).streamContent
      = concatFrags (["# head\n", "body `", "", "code`"].take 3) ∧
    ((["# head\n", "body `", "", "code`"].take 3).foldl
        (fun st c => handleStream (fun t => "<md>" ++ t ++ "</md>") st c) initState).streamDiv
      = (if concatFrags (["# head\n", "body `", "", "code`"].take 3) = "" then none
         else some ((fun t => "<md>" ++ t ++ "</md>") (concatFrags (["# head\n", "body `", "", "code`"].take 3)))) :=
  ⟨rfl, rfl,
    (stream_rendering_full_rerender (fun t => "<md>" ++ t ++ "</md>")
      ["# head\n", "body `", "", "code`"] 3 initState rfl rfl).1,
    (stream_rendering_full_rerender (fun t => "<md>" ++ t ++ "</md>")
      ["# head\n", "body `", "", "code`"] 3 initState rfl rfl).2⟩

/-! ### C3 -/

/-- C3: for every state, however many tool badges and thinking indicators
are pending, an error event leaves zero tool badges (discarded, not marked
done) and no thinking indicator, appends a visible error entry after the
remnant of the live div, resets the accumulated stream buffer and
re-enables input. -/
theorem error_event_discards_tools_and_resets (s : AppState) (content : String) :
    (handleError s content).badges = [] ∧
    (handleError s content).hasSpinner = false ∧
    (handleError s content).messages
        = s.messages ++ streamDivRemnant s ++ [Entry.errorE content] ∧
    (handleError s content).streamDiv = none ∧
    (handleError s content).streamContent = "" ∧
    (handleError s content).inputEnabled = true := by
  simp [handleError, removeAllToolBadges, removeSpinner, streamDivRemnant]

/-! ### C2 -/

/-- C2: for a turn consisting of a user send (existing chat, open socket)
followed by any sequence of stream and tool_call events, handling
stream_end leaves exactly the tool calls seen since that send as badges,
all marked done, in their original arrival order - hence zero running
badges - zero thinking indicators, an empty accumulated stream buffer, and
re-enabled input. -/
theorem stream_end_finalizes_turn (render : String → String)
    (s : AppState) (mids : List MidEvt) (ur : Except String (List String))
    (db : String) (cid : Int)
    (hdb : s.currentDatabase = some db)
    (hws : s.wsOpen = true)
    (hchat : s.currentChatId = some cid)
    (htext : jsTrim s.userInput ≠ "")
    (hfiles : s.attachedFiles = [])
    (hbadges : s.badges = []) :
    (handleStreamEnd (mids.foldl (stepMid render) (sendMessage ur s))).badges
        = midDoneBadges mids ∧
    (handleStreamEnd (mids.foldl (stepMid render) (sendMessage ur s))).hasSpinner = false ∧
    (handleStreamEnd (mids.foldl (stepMid render) (sendMessage ur s))).streamContent = "" ∧
    (handleStreamEnd (mids.foldl (stepMid render) (sendMessage ur s))).inputEnabled = true := by
  have hsend : (sendMessage ur s).badges = s.badges := by
    simp [sendMessage, hdb, hchat, hfiles, hws, htext, appendUser, showSpinner, setInputEnabled]
  have hfold : (mids.foldl (stepMid render) (sendMessage ur s)).badges
      = midRunningBadges mids := by
    rw [foldMid_badges, hsend, hbadges]
    simp
  refine ⟨?_, ?_, ?_, ?_⟩
  · simp [handleStreamEnd, markAllToolBadgesDone, hfold, midRunningBadges_mark_done]
  · simp [handleStreamEnd, markAllToolBadgesDone]
  · simp [handleStreamEnd, markAllToolBadgesDone]
  · simp [handleStreamEnd, markAllToolBadgesDone]

/-- A ready-to-send state used as concrete input for the C2 witness. -/
def c2Start : AppState :=
  { initState with
      currentDatabase := some "salesdb"
      currentChatId := some 1
      wsOpen := true
      userInput := "show slow queries" }

/-- Witness for C2 at a concrete turn: one tool call then one fragment. -/
theorem stream_end_finalizes_turn_witness :
    c2Start.currentDatabase = some "salesdb" ∧
    c2Start.wsOpen = true ∧
    c2Start.currentChatId = some 1 ∧
    jsTrim c2Start.userInput ≠ "" ∧
    c2Start.attachedFiles = [] ∧
    c2Start.badges = [] ∧
    ((handleStreamEnd
        ([MidEvt.toolCallEvt "query" [("sql", "select 1")], MidEvt.streamFrag "done"].foldl
          (stepMid (fun t => t)) (sendMessage (Except.ok []) c2Start))).badges
        = midDoneBadges [MidEvt.toolCallEvt "query" [("sql", "select 1")], MidEvt.streamFrag "done"] ∧
     (handleStreamEnd
        ([MidEvt.toolCallEvt "query" [("sql", "select 1")], MidEvt.streamFrag "done"].foldl
          (stepMid (fun t => t)) (sendMessage (Except.ok []) c2Start))).hasSpinner = false ∧
     (handleStreamEnd
        ([MidEvt.toolCallEvt "query" [("sql", "select 1")], MidEvt.streamFrag "done"].foldl
          (stepMid (fun t => t)) (sendMessage (Except.ok []) c2Start))).streamContent = "" ∧
     (handleStreamEnd
        ([MidEvt.toolCallEvt "query" [("sql", "select 1")], MidEvt.streamFrag "done"].foldl
          (stepMid (fun t => t)) (sendMessage (Except.ok []) c2Start))).inputEnabled = true) :=
  ⟨rfl, rfl, rfl, by decide, rfl, rfl,
    stream_end_finalizes_turn (fun t => t) c2Start
      [MidEvt.toolCallEvt "query" [("sql", "select 1")], MidEvt.streamFrag "done"]
      (Except.ok []) "salesdb" 1 rfl rfl rfl (by decide) rfl rfl⟩

/-! ### C4 -/

/-- C4: a non-empty submission with no active chat and an open socket is
held locally as a PendingSend; exactly one create_chat event with the
derived title is issued and input is disabled; upon the chat_created
confirmation (with a successful upload) exactly one upload fetch (when
attachments are present) followed by exactly one message event occurs. -/
theorem no_chat_send_creates_chat_first
    (s : AppState) (db text : String) (files : List FileRec)
    (chat : ChatSummary) (names : List String) (ur0 : Except String (List String))
    (hdb : s.currentDatabase = some db)
    (hws : s.wsOpen = true)
    (hchat : s.currentChatId = none)
    (htext : jsTrim s.userInput = text)
    (hfiles : s.attachedFiles = files)
    (hsubmit : ¬(text = "" ∧ files = [])) :
    (sendMessage ur0 s).pendingMessage = some text ∧
    (sendMessage ur0 s).pendingAttachments = (if files = [] then none else some files) ∧
    (sendMessage ur0 s).actions
        = s.actions ++ [NetAction.wsSend (OutMsg.createChat (deriveTitle text))] ∧
    (sendMessage ur0 s).inputEnabled = false ∧
    (handleChatCreated chat (Except.ok names) (sendMessage ur0 s)).actions
        = s.actions ++ [NetAction.wsSend (OutMsg.createChat (deriveTitle text))]
            ++ (if files = [] then [] else [NetAction.uploadFetch db chat.id files])
            ++ [NetAction.wsSend (OutMsg.message text (if files = [] then [] else names))] := by
  by_cases hf : files = []
  · subst hf
    have ht : text ≠ "" := fun h => hsubmit ⟨h, rfl⟩
    simp [sendMessage, handleChatCreated, clearChatUI, saveState, appendUser, appendError,
      setInputEnabled, showSpinner, hdb, hws, hchat, htext, hfiles, ht]
  · have hfe : files.isEmpty = false := by
      cases files with
      | nil => exact absurd rfl hf
      | cons a l => rfl
    simp [sendMessage, handleChatCreated, clearChatUI, saveState, appendUser, appendError,
      setInputEnabled, showSpinner, hdb, hws, hchat, htext, hfiles, hf, hfe]

/-- A compose state with text and one attachment, no active chat, used as
concrete input for the C4 witness. -/
def c4Start : AppState :=
  { initState with
      currentDatabase := some "salesdb"
      wsOpen := true
      userInput := "analyze this plan\nplease"
      attachedFiles := [{ name := "plan.sqlplan", size := 2048 }] }

/-- Witness for C4 at a concrete submission with one attachment. -/
theorem no_chat_send_creates_chat_first_witness :
    c4Start.currentDatabase = some "salesdb" ∧
    c4Start.wsOpen = true ∧
    c4Start.currentChatId = none ∧
    jsTrim c4Start.userInput = "analyze this plan\nplease" ∧
    c4Start.attachedFiles = [{ name := "plan.sqlplan", size := 2048 }] ∧
    ¬("analyze this plan\nplease" = "" ∧ ([{ name := "plan.sqlplan", size := 2048 }] : List FileRec) = []) ∧
    ((sendMessage (Except.ok []) c4Start).pendingMessage = some "analyze this plan\nplease" ∧
     (sendMessage (Except.ok []) c4Start).pendingAttachments
        = (if ([{ name := "plan.sqlplan", size := 2048 }] : List FileRec) = [] then none
           else some [{ name := "plan.sqlplan", size := 2048 }]) ∧
     (sendMessage (Except.ok []) c4Start).actions
        = c4Start.actions ++ [NetAction.wsSend (OutMsg.createChat (deriveTitle "analyze this plan\nplease"))] ∧
     (sendMessage (Except.ok []) c4Start).inputEnabled = false ∧
     (handleChatCreated { id := 42, title := "analyze this plan" } (Except.ok ["plan.sqlplan"])
        (sendMessage (Except.ok []) c4Start)).actions
        = c4Start.actions ++ [NetAction.wsSend (OutMsg.createChat (deriveTitle "analyze this plan\nplease"))]
            ++ (if ([{ name := "plan.sqlplan", size := 2048 }] : List FileRec) = [] then []
                else [NetAction.uploadFetch "salesdb" (42 : Int) [{ name := "plan.sqlplan", size := 2048 }]])
            ++ [NetAction.wsSend (OutMsg.message "analyze this plan\nplease"
                  (if ([{ name := "plan.sqlplan", size := 2048 }] : List FileRec) = [] then []
                   else ["plan.sqlplan"]))]) :=
  ⟨rfl, rfl, rfl, by decide, rfl, by decide,
    no_chat_send_creates_chat_first c4Start "salesdb" "analyze this plan\nplease"
      [{ name := "plan.sqlplan", size := 2048 }] { id := 42, title := "analyze this plan" }
      ["plan.sqlplan"] (Except.ok []) rfl rfl rfl (by decide) rfl (by decide)⟩

/-! ### C5 -/

/-- C5: when the attachment upload after chat_created fails, no message
event is sent (the only new action is the upload fetch), the PendingSend is
discarded, a visible error entry is appended (to the freshly cleared chat
view), input is re-enabled, and the created chat remains at the top of the
chat list and stays the active chat. -/
theorem upload_failure_discards_pending
    (s : AppState) (db e text : String) (chat : ChatSummary) (files : List FileRec)
    (hdb : s.currentDatabase = some db)
    (hpm : s.pendingMessage = some text)
    (hpa : s.pendingAttachments = some files)
    (hne : files ≠ []) :
    (handleChatCreated chat (Except.error e) s).actions
        = s.actions ++ [NetAction.uploadFetch db chat.id files] ∧
    (handleChatCreated chat (Except.error e) s).pendingMessage = none ∧
    (handleChatCreated chat (Except.error e) s).pendingAttachments = none ∧
    (handleChatCreated chat (Except.error e) s).messages
        = [Entry.errorE ("Upload failed: " ++ e)] ∧
    (handleChatCreated chat (Except.error e) s).inputEnabled = true ∧
    (handleChatCreated chat (Except.error e) s).chatList = chat :: s.chatList ∧
    (handleChatCreated chat (Except.error e) s).currentChatId = some chat.id := by
  have hfe : files.isEmpty = false := by
    cases files with
    | nil => exact absurd rfl hne
    | cons a l => rfl
  simp [handleChatCreated, clearChatUI, saveState, appendError, setInputEnabled,
    hdb, hpm, hpa, hfe]

/-- A post-send state holding a PendingSend with one attachment, used as
concrete input for the C5 witness. -/
def c5Start : AppState :=
  { initState with
      currentDatabase := some "salesdb"
      wsOpen := true
      pendingMessage := some "analyze this"
      pendingAttachments := some [{ name := "q.sql", size := 64 }]
      inputEnabled := false }

/-- Witness for C5 at a concrete failing upload. -/
theorem upload_failure_discards_pending_witness :
    c5Start.currentDatabase = some "salesdb" ∧
    c5Start.pendingMessage = some "analyze this" ∧
    c5Start.pendingAttachments = some [{ name := "q.sql", size := 64 }] ∧
    ([{ name := "q.sql", size := 64 }] : List FileRec) ≠ [] ∧
    ((handleChatCreated { id := 7, title := "analyze this" } (Except.error "disk full") c5Start).actions
        = c5Start.actions ++ [NetAction.uploadFetch "salesdb" (7 : Int) [{ name := "q.sql", size := 64 }]] ∧
     (handleChatCreated { id := 7, title := "analyze this" } (Except.error "disk full") c5Start).pendingMessage = none ∧
     (handleChatCreated { id := 7, title := "analyze this" } (Except.error "disk full") c5Start).pendingAttachments = none ∧
     (handleChatCreated { id := 7, title := "analyze this" } (Except.error "disk full") c5Start).messages
        = [Entry.errorE ("Upload failed: " ++ "disk full")] ∧
     (handleChatCreated { id := 7, title := "analyze this" } (Except.error "disk full") c5Start).inputEnabled = true ∧
     (handleChatCreated { id := 7, title := "analyze this" } (Except.error "disk full") c5Start).chatList
        = { id := 7, title := "analyze this" } :: c5Start.chatList ∧
     (handleChatCreated { id := 7, title := "analyze this" } (Except.error "disk full") c5Start).currentChatId
        = some (7 : Int)) :=
  ⟨rfl, rfl, rfl, by decide,
    upload_failure_discards_pending c5Start "salesdb" "disk full" "analyze this"
      { id := 7, title := "analyze this" } [{ name := "q.sql", size := 64 }]
      rfl rfl rfl (by decide)⟩

/-! ### C6 -/

/-- A state with an open stream (non-empty buffer, a running badge and
the thinking indicator), used to exercise `selectChat`. -/
def c6Mid : AppState :=
  { initState with
      currentDatabase := some "salesdb"
      currentChatId := some 1
      wsOpen := true
      badges := [("query(sql=select 1)", false)]
      hasSpinner := true
      streamDiv := some "<p>draft</p>"
      streamContent := "draft"
      inputEnabled := false }

/-- Counterexample to C6: selecting a different chat while a stream is
open leaves the displayed stream and tool state completely untouched
inside the selection handler - nothing is cleared there. -/
theorem select_chat_leaves_stream_visible_counterexample :
    (selectChat 2 c6Mid).badges = [("query(sql=select 1)", false)] ∧
    (selectChat 2 c6Mid).hasSpinner = true ∧
    (selectChat 2 c6Mid).streamDiv = some "<p>draft</p>" ∧
    (selectChat 2 c6Mid).streamContent = "draft" := by
  decide

/-- C6 as amended: `selectChat` never clears any displayed stream or tool
state (the display stays unchanged until a later inbound event rewrites
it), while `onDatabaseChange` does end with the display cleared - though
only after its awaited chat-list fetch, not before any network round
trip. -/
theorem context_switch_clearing_amended :
    (∀ (chatId : Int) (s : AppState),
       (selectChat chatId s).badges = s.badges ∧
       (selectChat chatId s).hasSpinner = s.hasSpinner ∧
       (selectChat chatId s).streamDiv = s.streamDiv ∧
       (selectChat chatId s).streamContent = s.streamContent ∧
       (selectChat chatId s).messages = s.messages) ∧
    (∀ (db : Option String) (chats : List ChatSummary) (s : AppState),
       (onDatabaseChange db chats s).badges = [] ∧
       (onDatabaseChange db chats s).hasSpinner = false ∧
       (onDatabaseChange db chats s).streamDiv = none ∧
       (onDatabaseChange db chats s).streamContent = "" ∧
       (onDatabaseChange db chats s).messages = []) := by
  constructor
  · intro chatId s
    cases hdb : s.currentDatabase <;> cases hws : s.wsOpen <;>
      simp [selectChat, saveState, hdb, hws]
  · intro db chats s
    simp [onDatabaseChange, clearChatUI, setInputEnabled]

/-! ### C7 -/

/-- A session that had persisted chat id 7 earlier, used to exercise a
database switch. -/
def c7Prev : AppState :=
  { initState with
      currentDatabase := some "salesdb"
      wsOpen := true
      savedDb := some "salesdb"
      savedChat := some 7 }

/-- Counterexample to C7: switching to a database whose chat list contains
the persisted chat id completes with that chat active again - the active
chat id is not left cleared until the user selects one. -/
theorem db_switch_restores_persisted_chat_counterexample :
    (onDatabaseChange (some "hrdb") [{ id := 7, title := "t7" }] c7Prev).currentChatId = some 7 ∧
    ¬(onDatabaseChange (some "hrdb") [{ id := 7, title := "t7" }] c7Prev).currentChatId = none := by
  decide

/-- C7 as amended: a database switch clears the active chat, except that a
persisted chat id found in the newly fetched chat list is automatically
re-selected as the active chat; switching to no database always leaves no
chat active. -/
theorem db_switch_chat_amended (db : String) (chats : List ChatSummary) (s : AppState) :
    ((onDatabaseChange (some db) chats s).currentChatId
        = (match s.savedChat with
           | some savedId => if chats.any (fun c => c.id == savedId) then some savedId else none
           | none => none)) ∧
    (onDatabaseChange none chats s).currentChatId = none := by
  constructor
  · cases hsc : s.savedChat with
    | none =>
      cases hws : s.wsOpen <;>
        simp [onDatabaseChange, saveState, clearChatUI, setInputEnabled, hsc, hws]
    | some savedId =>
      by_cases hany : chats.any (fun c => c.id == savedId) <;>
        cases hws : s.wsOpen <;>
          simp [onDatabaseChange, saveState, selectChat, clearChatUI, setInputEnabled, hsc, hws, hany]
  · simp [onDatabaseChange, saveState, clearChatUI, setInputEnabled]

/-! ### C8 -/

/-- A ready session with an empty compose box and no attachments. -/
def c8Empty : AppState :=
  { initState with currentDatabase := some "salesdb", wsOpen := true }

/-- Counterexample to C8: an empty message with no attachment
short-circuits with no network call but WITHOUT rendering any error entry -
the submission is a complete no-op, so no visible error appears. -/
theorem empty_submission_is_silent_counterexample :
    sendMessage (Except.ok []) c8Empty = c8Empty ∧ c8Empty.messages = [] := by
  decide

/-- C8 as amended: a validation-failing submission makes no network call;
with no database selected a visible error entry is rendered, but an empty
message with no attachment is dropped silently, leaving the state (and in
particular the transcript and the action log) unchanged. -/
theorem client_validation_amended (s : AppState) (ur : Except String (List String))
    (hfail : s.currentDatabase = none ∨ (jsTrim s.userInput = "" ∧ s.attachedFiles = [])) :
    sendMessage ur s =
      (if jsTrim s.userInput = "" ∧ s.attachedFiles = [] then s
       else appendError s "Please select a database first.") := by
  by_cases hempty : jsTrim s.userInput = "" ∧ s.attachedFiles = []
  · have hfe : s.attachedFiles.isEmpty = true := by
      rw [hempty.2]
      rfl
    simp [sendMessage, hempty, hempty.1, hfe]
  · have hdb : s.currentDatabase = none := by
      cases hfail with
      | inl h => exact h
      | inr h => exact absurd h hempty
    have hfe : ¬(jsTrim s.userInput = "" ∧ s.attachedFiles.isEmpty = true) := by
      intro h
      apply hempty
      refine ⟨h.1, ?_⟩
      cases hf : s.attachedFiles with
      | nil => rfl
      | cons a l => rw [hf] at h; exact absurd h.2 (by simp)
    simp [sendMessage, hempty, hdb, hfe]

/-- A no-database session with non-empty input, for the C8 witness. -/
def c8NoDb : AppState := { initState with userInput := "hello", wsOpen := true }

/-- Witness for the amended C8 at a concrete no-database submission. -/
theorem client_validation_amended_witness :
    (c8NoDb.currentDatabase = none ∨ (jsTrim c8NoDb.userInput = "" ∧ c8NoDb.attachedFiles = [])) ∧
    sendMessage (Except.ok []) c8NoDb =
      (if jsTrim c8NoDb.userInput = "" ∧ c8NoDb.attachedFiles = [] then c8NoDb
       else appendError c8NoDb "Please select a database first.") :=
  ⟨Or.inl rfl, client_validation_amended c8NoDb (Except.ok []) (Or.inl rfl)⟩

/-! ### C9 -/

/-- C9: a non-empty submission made with a database selected but the
socket not open surfaces a visible error entry, triggers a reconnection
attempt, sends nothing, and queues nothing - the pending holders and the
compose box are left as they were. -/
theorem disconnected_send_surfaces_error
    (s : AppState) (ur : Except String (List String))
    (hsubmit : ¬(jsTrim s.userInput = "" ∧ s.attachedFiles = []))
    (hdb : s.currentDatabase.isSome)
    (hws : s.wsOpen = false) :
    (sendMessage ur s).actions = s.actions ∧
    (sendMessage ur s).messages
        = s.messages ++ [Entry.errorE "WebSocket is not connected. Reconnecting..."] ∧
    (sendMessage ur s).connectCalls = s.connectCalls + 1 ∧
    (sendMessage ur s).pendingMessage = s.pendingMessage ∧
    (sendMessage ur s).userInput = s.userInput := by
  have hfe : ¬(jsTrim s.userInput = "" ∧ s.attachedFiles.isEmpty = true) := by
    intro h
    apply hsubmit
    refine ⟨h.1, ?_⟩
    cases hf : s.attachedFiles with
    | nil => rfl
    | cons a l => rw [hf] at h; exact absurd h.2 (by simp)
  have hdbn : s.currentDatabase.isNone = false := by
    cases hv : s.currentDatabase with
    | none => rw [hv] at hdb; exact absurd hdb (by simp)
    | some d => rfl
  simp [sendMessage, appendError, hfe, hsubmit, hdbn, hws]

/-- A disconnected session with typed input, for the C9 witness. -/
def c9Off : AppState :=
  { initState with currentDatabase := some "salesdb", userInput := "hi", wsOpen := false }

/-- Witness for C9 at a concrete disconnected send attempt. -/
theorem disconnected_send_surfaces_error_witness :
    ¬(jsTrim c9Off.userInput = "" ∧ c9Off.attachedFiles = []) ∧
    c9Off.currentDatabase.isSome = true ∧
    c9Off.wsOpen = false ∧
    ((sendMessage (Except.ok []) c9Off).actions = c9Off.actions ∧
     (sendMessage (Except.ok []) c9Off).messages
        = c9Off.messages ++ [Entry.errorE "WebSocket is not connected. Reconnecting..."] ∧
     (sendMessage (Except.ok []) c9Off).connectCalls = c9Off.connectCalls + 1 ∧
     (sendMessage (Except.ok []) c9Off).pendingMessage = c9Off.pendingMessage ∧
     (sendMessage (Except.ok []) c9Off).userInput = c9Off.userInput) :=
  ⟨by decide, rfl, rfl,
    disconnected_send_surfaces_error c9Off (Except.ok []) (by decide) (by decide) rfl⟩

/-! ### C10 -/

/-- C10: `saveState` only writes the persisted keys and never removes
them - with no active chat the previously persisted chat id is left in
place (and a persisted database key likewise survives) - so a chat id
saved earlier is restored as the active chat by a later `onDatabaseChange`
that finds it in the newly loaded chat list. -/
theorem persisted_chat_survives_and_restores
    (s : AppState) (cid : Int) (db : String) (chats : List ChatSummary)
    (hnochat : s.currentChatId = none)
    (hsaved : s.savedChat = some cid)
    (hfound : chats.any (fun c => c.id == cid) = true) :
    (saveState s).savedChat = some cid ∧
    (∀ d, s.savedDb = some d → (saveState s).savedDb ≠ none) ∧
    (onDatabaseChange (some db) chats s).currentChatId = some cid := by
  refine ⟨?_, ?_, ?_⟩
  · cases hdb : s.currentDatabase <;> simp [saveState, hnochat, hsaved, hdb]
  · intro d hd
    cases hdb : s.currentDatabase <;> simp [saveState, hnochat, hdb, hd]
  · cases hws : s.wsOpen <;>
      simp [onDatabaseChange, saveState, selectChat, clearChatUI, setInputEnabled,
        hsaved, hfound, hws]

/-- A session about to switch database while chat id 7 is persisted but no
chat is active, for the C10 witness. -/
def c10Prev : AppState :=
  { initState with
      currentDatabase := some "salesdb"
      wsOpen := true
      savedDb := some "salesdb"
      savedChat := some 7 }

/-- Witness for C10 at a concrete persisted chat id found in the new
database's chat list. -/
theorem persisted_chat_survives_and_restores_witness :
    c10Prev.currentChatId = none ∧
    c10Prev.savedChat = some 7 ∧
    ([{ id := 7, title := "t7" }] : List ChatSummary).any (fun c => c.id == (7 : Int)) = true ∧
    ((saveState c10Prev).savedChat = some 7 ∧
     (∀ d, c10Prev.savedDb = some d → (saveState c10Prev).savedDb ≠ none) ∧
     (onDatabaseChange (some "hrdb") [{ id := 7, title := "t7" }] c10Prev).currentChatId = some 7) :=
  ⟨rfl, rfl, by decide,
    persisted_chat_survives_and_restores c10Prev 7 "hrdb" [{ id := 7, title := "t7" }]
      rfl rfl (by decide)⟩
